import Mathlib

/-!
Shallow embedding of `novel-mvp-backend/python-services/whisper-stt/app.py`,
a FastAPI wrapper around the Whisper speech-to-text model.

Modelling conventions:
* Python floats are modelled as `ℚ` (all the arithmetic the handlers perform —
  negation, absolute value, subtraction, division by the constant `-1` — is
  exact on IEEE doubles for the relevant inputs, so the rational model is
  faithful to the formulas in the source).
* Uploaded bytes are `List ℕ`; only their length and identity matter.
* External library calls (`librosa.load`, `whisper.load_model`,
  `whisper.log_mel_spectrogram`, the loaded model's `transcribe` and
  `detect_language` methods) are abstract functions gathered in `Env` and
  `WhisperModel`; the handlers are proved correct for every such environment.
* A Python exception escaping a handler body is an `HandlerResult.httpError`;
  an exception raised by `librosa.load` inside `preprocess_audio` is the
  `Except.error` branch of the decode function, re-raised by `preprocess_audio`
  and turned into a 500 by the enclosing `except` clause, exactly as in the
  source. Note that FastAPI's `HTTPException` subclasses `Exception`, so an
  `HTTPException` raised inside a `try` block is caught by the handler's
  generic `except Exception` clause and re-wrapped as a 500 whose detail embeds
  `str(e) = f"413: File too large..."`; the embedding reproduces this.
* Each request handler is a state transformer
  `ServerState → ServerState × HandlerResult _`; the Python source contains no
  assignment to the globals inside any handler (only `load_whisper_model` has
  `global whisper_model`), which the embedding reflects by returning the state
  explicitly from every handler.
-/

namespace WhisperSTT

/-- Configuration computed at module import time (`class Config` in app.py).
`MODEL_NAME` comes from the `WHISPER_MODEL` environment variable with default
`"base"`; `DEVICE` is `"cuda"` exactly when `torch.cuda.is_available()` is
true, and `"cpu"` otherwise. -/
structure Config where
  MODEL_NAME : String
  DEVICE : String
  LANGUAGE : String
  TEMPERATURE : ℚ
  MAX_FILE_SIZE : ℕ
  SAMPLE_RATE : ℕ

/-- The `Config` instance built at import time, parametrised by the outcome of
`os.getenv("WHISPER_MODEL")` and `torch.cuda.is_available()`. -/
def mkConfig (envWhisperModel : Option String) (cudaAvailable : Bool) : Config where
  MODEL_NAME := envWhisperModel.getD "base"
  DEVICE := if cudaAvailable then "cuda" else "cpu"
  LANGUAGE := "ko"
  TEMPERATURE := 0
  MAX_FILE_SIZE := 25 * 1024 * 1024
  SAMPLE_RATE := 16000

/-- One segment dict of a Whisper transcription result. `text` is a mandatory
key (the handlers index it directly); `avg_logprob` is read with
`segment.get("avg_logprob", -1.0)`, so it is optional. -/
structure Segment where
  text : String
  start : ℚ
  «end» : ℚ
  avg_logprob : Option ℚ

/-- The result dict returned by `whisper_model.transcribe`. `text` is a
mandatory key (`result["text"]`); the others are read with `.get` and are
therefore optional. -/
structure TranscribeResult where
  text : String
  language : Option String
  duration : Option ℚ
  segments : Option (List Segment)
  avg_logprob : Option ℚ

/-- Keyword arguments passed to `whisper_model.transcribe`. A field is `none`
when the call site does not pass the keyword at all (the library default then
applies). -/
structure TranscribeOptions where
  language : Option String
  temperature : Option ℚ
  word_timestamps : Option Bool
  condition_on_previous_text : Option Bool

/-- Abstract loaded Whisper model: its `transcribe` and `detect_language`
entry points and its `dims.n_mels` attribute. `detect_language` returns the
`probs` dict as an association list in the dict's iteration order. -/
structure WhisperModel where
  transcribe : List ℚ → TranscribeOptions → TranscribeResult
  detect_language : List ℚ → List (String × ℚ)
  dims_n_mels : ℕ

/-- External library functions the service calls: `librosa.load` at
`sr=SAMPLE_RATE` (decoding bytes to a mono float array, or raising — the
`Except.error` branch), `whisper.load_model`, and
`whisper.log_mel_spectrogram`. -/
structure Env where
  librosa_load : List ℕ → Except String (List ℚ)
  whisper_load_model : String → String → WhisperModel
  log_mel_spectrogram : List ℚ → ℕ → List ℚ

/-- The module-level mutable state: the `whisper_model` global (initially
`None`) and the `config` global. -/
structure ServerState where
  whisper_model : Option WhisperModel
  config : Config

/-- Outcome of one request: a successful JSON body, or an `HTTPException`
escaping the handler with a status code and detail string. -/
inductive HandlerResult (α : Type) where
  | ok (value : α)
  | httpError (status_code : ℕ) (detail : String)
deriving DecidableEq

/-- Pydantic `TranscriptionResponse`. -/
structure TranscriptionResponse where
  text : String
  language : Option String
  duration : Option ℚ
  segments : Option (List Segment)
  confidence : Option ℚ

/-- Pydantic `LanguageDetectionResponse`. -/
structure LanguageDetectionResponse where
  detected_language : String
  confidence : ℚ

/-- Pydantic `HealthResponse`. -/
structure HealthResponse where
  status : String
  model : String
  device : String
  timestamp : String

/-- One entry of the `/v1/models` listing. -/
structure ModelEntry where
  id : String
  size : String
  description : String

/-- Body returned by `/transcribe-quick`. -/
structure QuickResponse where
  text : String

/-- One segment of the `/transcribe-stream` response. -/
structure StreamSegmentOut where
  text : String
  start : ℚ
  «end» : ℚ
  confidence : ℚ

/-- Body returned by `/transcribe-stream`. -/
structure StreamResponse where
  text : String
  segments : List StreamSegmentOut
  language : Option String

/-- Body returned by `/info`. -/
structure InfoResponse where
  service : String
  version : String
  model : String
  device : String
  supported_languages : List String
  features : List String

/-- Starlette renders `str(HTTPException(code, detail))` as
`f"{code}: {detail}"`; this is the string embedded in the 500 detail when an
`HTTPException` raised inside a `try` block is caught by the generic
`except Exception` clause. -/
def httpExceptionStr (status_code : ℕ) (detail : String) : String :=
  toString status_code ++ ": " ++ detail

/-- `preprocess_audio` (app.py lines 94–114): decode the uploaded bytes with
`librosa.load` at `sr=config.SAMPLE_RATE` (mono), cast to float32 (identity in
the rational model), then trim to `SAMPLE_RATE * 30` samples when longer, and
otherwise zero-pad at the end up to that length. A decode exception is
re-raised (`Except.error`). -/
def preprocess_audio (librosa_load : List ℕ → Except String (List ℚ))
    (config : Config) (audio_file : List ℕ) : Except String (List ℚ) :=
  match librosa_load audio_file with
  | .error e => .error e
  | .ok audio_data =>
    let max_length := config.SAMPLE_RATE * 30
    if audio_data.length > max_length then
      .ok (audio_data.take max_length)
    else
      .ok (audio_data ++ List.replicate (max_length - audio_data.length) 0)

/-- The overall-confidence formula of `/v1/audio/transcriptions`
(app.py line 185): `1.0 - (p / -1.0)`. -/
def overall_confidence_transform (avg_logprob : ℚ) : ℚ :=
  1 - avg_logprob / (-1)

/-- The per-segment confidence formula of `/transcribe-stream`
(app.py line 287): `1.0 - abs(p)`. -/
def segment_confidence_transform (avg_logprob : ℚ) : ℚ :=
  1 - |avg_logprob|

/-- Line 185 of app.py:
`1.0 - (result.get("avg_logprob", -1.0) / -1.0) if "avg_logprob" in result else None`. -/
def transcription_confidence (avg_logprob : Option ℚ) : Option ℚ :=
  if avg_logprob.isSome then
    some (overall_confidence_transform (avg_logprob.getD (-1)))
  else
    none

/-- The `options` kwargs dict built by `/v1/audio/transcriptions` (lines
171–178): `language` and `temperature` always, `word_timestamps=True` only
when `timestamp_granularities` is truthy (non-`None` and non-empty). -/
def transcription_options (language : Option String) (temperature : ℚ)
    (timestamp_granularities : Option String) : TranscribeOptions where
  language := language
  temperature := some temperature
  word_timestamps :=
    match timestamp_granularities with
    | none => none
    | some s => if s = "" then none else some true
  condition_on_previous_text := none

/-- `TranscriptionResponse(...)` construction of `/v1/audio/transcriptions`
(lines 187–193). -/
def format_transcription (result : TranscribeResult) : TranscriptionResponse where
  text := result.text.trim
  language := result.language
  duration := result.duration
  segments := result.segments
  confidence := transcription_confidence result.avg_logprob

/-- `load_whisper_model` (lines 83–92): assigns the `whisper_model` global to
`whisper.load_model(config.MODEL_NAME, device=config.DEVICE)`. -/
def load_whisper_model (env : Env) (st : ServerState) : ServerState :=
  { st with
    whisper_model := some (env.whisper_load_model st.config.MODEL_NAME st.config.DEVICE) }

/-- `startup_event` (lines 116–119): just calls `load_whisper_model`. -/
def startup_event (env : Env) (st : ServerState) : ServerState :=
  load_whisper_model env st

/-- `GET /health` (lines 121–129). The body raises nothing, so the embedding
returns a plain response; `now` stands for `datetime.now().isoformat()`. -/
def health_check (st : ServerState) (now : String) : ServerState × HealthResponse :=
  (st,
   { status := if st.whisper_model.isSome then "healthy" else "unhealthy"
     model := st.config.MODEL_NAME
     device := st.config.DEVICE
     timestamp := now })

/-- `GET /v1/models` (lines 131–141): a constant listing. -/
def get_models (st : ServerState) : ServerState × List ModelEntry :=
  (st,
   [⟨"tiny", "39M", "Fastest, lowest accuracy"⟩,
    ⟨"base", "74M", "Good balance of speed and accuracy"⟩,
    ⟨"small", "244M", "Better accuracy, slower"⟩,
    ⟨"medium", "769M", "High accuracy"⟩,
    ⟨"large", "1550M", "Best accuracy, slowest"⟩])

/-- `POST /v1/audio/transcriptions` (lines 143–200). The 503 is raised before
the `try` block; the 413 raised inside it is caught by `except Exception` and
surfaces as a 500 whose detail embeds `str(HTTPException(413, ...))`. The
`model` and `response_format` form fields are accepted but unused by the body,
as in the source. -/
def transcribe_audio (env : Env) (st : ServerState) (file_content : List ℕ)
    (model : String) (language : Option String) (response_format : String)
    (temperature : ℚ) (timestamp_granularities : Option String) :
    ServerState × HandlerResult TranscriptionResponse :=
  match st.whisper_model with
  | none => (st, .httpError 503 "Whisper model not loaded")
  | some wm =>
    if file_content.length > st.config.MAX_FILE_SIZE then
      (st, .httpError 500 ("Transcription failed: " ++
        httpExceptionStr 413
          ("File too large. Maximum size: " ++ toString st.config.MAX_FILE_SIZE ++ " bytes")))
    else
      match preprocess_audio env.librosa_load st.config file_content with
      | .error e => (st, .httpError 500 ("Transcription failed: " ++ e))
      | .ok audio_data =>
        let result := wm.transcribe audio_data
          (transcription_options language temperature timestamp_granularities)
        (st, .ok (format_transcription result))

/-- Python's `max(iterable, key=value)` specialised to the pairs of a dict:
fold keeping the current maximum, replacing it only on a strictly greater
value, so the first maximal element wins ties; `none` on the empty dict
(where Python raises `ValueError`). Iterating the pairs and comparing second
components coincides with `max(probs, key=probs.get)` because a dict's keys
are distinct. -/
def pyMaxByValue (probs : List (String × ℚ)) : Option (String × ℚ) :=
  match probs with
  | [] => none
  | x :: xs => some (xs.foldl (fun cur y => if cur.2 < y.2 then y else cur) x)

/-- Python dict indexing `probs[k]`: the value of the first pair whose key is
`k`, `none` when absent (where Python raises `KeyError`). -/
def dict_lookup (k : String) : List (String × ℚ) → Option ℚ
  | [] => none
  | (k', v) :: rest => if k = k' then some v else dict_lookup k rest

/-- `POST /v1/audio/detect-language` (lines 202–238). Its 413 detail is the
bare `"File too large"`; like the transcription handler it is re-wrapped as a
500 by the generic `except` clause. -/
def detect_language (env : Env) (st : ServerState) (file_content : List ℕ) :
    ServerState × HandlerResult LanguageDetectionResponse :=
  match st.whisper_model with
  | none => (st, .httpError 503 "Whisper model not loaded")
  | some wm =>
    if file_content.length > st.config.MAX_FILE_SIZE then
      (st, .httpError 500 ("Language detection failed: " ++
        httpExceptionStr 413 "File too large"))
    else
      match preprocess_audio env.librosa_load st.config file_content with
      | .error e => (st, .httpError 500 ("Language detection failed: " ++ e))
      | .ok audio_data =>
        let audio_segment := audio_data.take (st.config.SAMPLE_RATE * 30)
        let mel := env.log_mel_spectrogram audio_segment wm.dims_n_mels
        let probs := wm.detect_language mel
        match pyMaxByValue probs with
        | none => (st, .httpError 500
            ("Language detection failed: " ++ "max() arg is an empty sequence"))
        | some dl =>
          match dict_lookup dl.1 probs with
          | none => (st, .httpError 500 ("Language detection failed: " ++ "KeyError"))
          | some confidence =>
            (st, .ok { detected_language := dl.1, confidence := confidence })

/-- `POST /transcribe-quick` (lines 240–261). No size check and no explicit
model-loaded check: calling `.transcribe` on `None` raises an
`AttributeError`, caught by the `except` clause into a 500 with
`detail=str(e)`. -/
def transcribe_quick (env : Env) (st : ServerState) (file_content : List ℕ) :
    ServerState × HandlerResult QuickResponse :=
  match st.whisper_model with
  | none => (st, .httpError 500 "NoneType object has no attribute transcribe")
  | some wm =>
    match preprocess_audio env.librosa_load st.config file_content with
    | .error e => (st, .httpError 500 e)
    | .ok audio_data =>
      let result := wm.transcribe audio_data
        { language := some st.config.LANGUAGE
          temperature := some 0
          word_timestamps := some false
          condition_on_previous_text := none }
      (st, .ok { text := result.text.trim })

/-- `POST /transcribe-stream` (lines 263–298). Per segment the confidence is
`1.0 - abs(segment.get("avg_logprob", -1.0))`. -/
def transcribe_stream (env : Env) (st : ServerState) (file_content : List ℕ) :
    ServerState × HandlerResult StreamResponse :=
  match st.whisper_model with
  | none => (st, .httpError 500 "NoneType object has no attribute transcribe")
  | some wm =>
    match preprocess_audio env.librosa_load st.config file_content with
    | .error e => (st, .httpError 500 e)
    | .ok audio_data =>
      let result := wm.transcribe audio_data
        { language := some st.config.LANGUAGE
          temperature := none
          word_timestamps := some true
          condition_on_previous_text := some true }
      let segments := (result.segments.getD []).map (fun segment =>
        ({ text := segment.text.trim
           start := segment.start
           «end» := segment.«end»
           confidence := segment_confidence_transform (segment.avg_logprob.getD (-1))
         } : StreamSegmentOut))
      (st, .ok { text := result.text.trim, segments := segments, language := result.language })

/-- `GET /info` (lines 300–319): a constant body plus the config's model and
device. -/
def get_info (st : ServerState) : ServerState × InfoResponse :=
  (st,
   { service := "Whisper STT Server"
     version := "1.0.0"
     model := st.config.MODEL_NAME
     device := st.config.DEVICE
     supported_languages :=
       ["ko", "en", "ja", "zh", "es", "fr", "de", "ru", "it", "pt",
        "pl", "tr", "nl", "ar", "sv", "he", "hu", "uk", "vi", "th"]
     features :=
       ["Real-time transcription", "Language detection",
        "Korean language optimized", "Streaming support", "Multiple model sizes"] })

/-- Concrete model used by witnesses. -/
def testModel : WhisperModel where
  transcribe := fun _ _ =>
    { text := " hello "
      language := some "ko"
      duration := some 1
      segments := none
      avg_logprob := some (-1/2) }
  detect_language := fun _ => [("ko", 9/10), ("en", 1/10)]
  dims_n_mels := 80

/-- Concrete environment used by witnesses: the decoder always yields the
three-sample array `[1, 2, 3]`. -/
def testEnv : Env where
  librosa_load := fun _ => .ok [1, 2, 3]
  whisper_load_model := fun _ _ => testModel
  log_mel_spectrogram := fun a _ => a

/-- Concrete server state used by witnesses. -/
def testState : ServerState where
  whisper_model := some testModel
  config := mkConfig none false

/-! ## Helper lemmas -/

/-- A successful `preprocess_audio` result always has exactly
`config.SAMPLE_RATE * 30` samples. -/
theorem preprocess_audio_length (load : List ℕ → Except String (List ℚ))
    (config : Config) (audio_file : List ℕ) (r : List ℚ)
    (h : preprocess_audio load config audio_file = .ok r) :
    r.length = config.SAMPLE_RATE * 30 := by
  unfold preprocess_audio at h
  cases hl : load audio_file with
  | error e => rw [hl] at h; cases h
  | ok audio_data =>
    rw [hl] at h
    dsimp only at h
    by_cases hlen : audio_data.length > config.SAMPLE_RATE * 30
    · rw [if_pos hlen] at h
      cases h
      simp [List.length_take]
      omega
    · rw [if_neg hlen] at h
      cases h
      simp [List.length_append, List.length_replicate]
      omega

/-- Unfolding equation for `preprocess_audio` once the decode result is
known. -/
theorem preprocess_audio_eq (load : List ℕ → Except String (List ℚ)) (config : Config)
    (audio_file : List ℕ) (decoded : List ℚ)
    (hdec : load audio_file = .ok decoded) :
    preprocess_audio load config audio_file =
      if decoded.length > config.SAMPLE_RATE * 30 then
        .ok (decoded.take (config.SAMPLE_RATE * 30))
      else .ok (decoded ++ List.replicate (config.SAMPLE_RATE * 30 - decoded.length) 0) := by
  unfold preprocess_audio
  rw [hdec]

/-- `preprocess_audio` on a decode result no longer than the window
zero-pads it. -/
theorem preprocess_audio_short (load : List ℕ → Except String (List ℚ)) (config : Config)
    (audio_file : List ℕ) (decoded : List ℚ)
    (hdec : load audio_file = .ok decoded)
    (hlen : ¬ decoded.length > config.SAMPLE_RATE * 30) :
    preprocess_audio load config audio_file =
      .ok (decoded ++ List.replicate (config.SAMPLE_RATE * 30 - decoded.length) 0) := by
  rw [preprocess_audio_eq load config audio_file decoded hdec, if_neg hlen]

/-- The fold inside `pyMaxByValue` returns an element of the inspected list. -/
theorem pyMax_foldl_mem (xs : List (String × ℚ)) (x : String × ℚ) :
    xs.foldl (fun cur y => if cur.2 < y.2 then y else cur) x ∈ x :: xs := by
  induction xs generalizing x with
  | nil => simp
  | cons z zs ih =>
    simp only [List.foldl_cons]
    rcases List.mem_cons.mp (ih (if x.2 < z.2 then z else x)) with h | h
    · rw [h]
      split
      · simp
      · simp
    · simp [h]

/-- The fold inside `pyMaxByValue` dominates its seed value. -/
theorem pyMax_foldl_seed_le (xs : List (String × ℚ)) (x : String × ℚ) :
    x.2 ≤ (xs.foldl (fun cur y => if cur.2 < y.2 then y else cur) x).2 := by
  induction xs generalizing x with
  | nil => simp
  | cons z zs ih =>
    simp only [List.foldl_cons]
    refine le_trans ?_ (ih (if x.2 < z.2 then z else x))
    split
    · exact le_of_lt (by assumption)
    · exact le_refl _

/-- The fold inside `pyMaxByValue` dominates every inspected value. -/
theorem pyMax_foldl_ge (xs : List (String × ℚ)) (y : String × ℚ) :
    ∀ x, y ∈ x :: xs →
      y.2 ≤ (xs.foldl (fun cur y => if cur.2 < y.2 then y else cur) x).2 := by
  induction xs with
  | nil =>
    intro x hy
    rcases List.mem_cons.mp hy with rfl | h
    · exact le_refl _
    · simp at h
  | cons z zs ih =>
    intro x hy
    simp only [List.foldl_cons]
    rcases List.mem_cons.mp hy with rfl | hy'
    · refine le_trans ?_ (pyMax_foldl_seed_le zs _)
      split
      · exact le_of_lt (by assumption)
      · exact le_refl _
    · rcases List.mem_cons.mp hy' with rfl | hy''
      · refine le_trans ?_ (pyMax_foldl_seed_le zs _)
        split
        · exact le_refl _
        · exact le_of_not_lt (by assumption)
      · exact ih _ (List.mem_cons_of_mem _ hy'')

/-- On a non-empty dict, `pyMaxByValue` returns a pair of the dict whose value
dominates every value of the dict. -/
theorem pyMaxByValue_spec (probs : List (String × ℚ)) (hne : probs ≠ []) :
    ∃ q, pyMaxByValue probs = some q ∧ q ∈ probs ∧ ∀ y ∈ probs, y.2 ≤ q.2 := by
  cases probs with
  | nil => exact absurd rfl hne
  | cons x xs =>
    refine ⟨_, rfl, pyMax_foldl_mem xs x, fun y hy => pyMax_foldl_ge xs y x hy⟩

/-- Dict lookup of a pair that is present, when keys are distinct, returns
that pair's value. -/
theorem dict_lookup_of_mem (probs : List (String × ℚ)) (d : String) (c : ℚ)
    (hnd : (probs.map Prod.fst).Nodup) (hmem : (d, c) ∈ probs) :
    dict_lookup d probs = some c := by
  induction probs with
  | nil => simp at hmem
  | cons p rest ih =>
    obtain ⟨k', v⟩ := p
    rw [List.map_cons, List.nodup_cons] at hnd
    rcases List.mem_cons.mp hmem with heq | hmem'
    · cases heq
      simp [dict_lookup]
    · have hdk : d ≠ k' := by
        intro hdk
        have hdmem : d ∈ rest.map Prod.fst := List.mem_map_of_mem Prod.fst hmem'
        exact hnd.1 (hdk ▸ hdmem)
      simp only [dict_lookup, if_neg hdk]
      exact ih hnd.2 hmem'

/-- Unfolding equation for the happy path of `transcribe_audio`: model
loaded, size within the limit, decode succeeded. -/
theorem transcribe_audio_ok (env : Env) (st : ServerState) (wm : WhisperModel)
    (file_content : List ℕ) (model : String) (language : Option String)
    (response_format : String) (temperature : ℚ) (timestamp_granularities : Option String)
    (audio_data : List ℚ)
    (hm : st.whisper_model = some wm)
    (hsize : ¬ file_content.length > st.config.MAX_FILE_SIZE)
    (hpre : preprocess_audio env.librosa_load st.config file_content = .ok audio_data) :
    transcribe_audio env st file_content model language response_format temperature
        timestamp_granularities
      = (st, .ok (format_transcription (wm.transcribe audio_data
          (transcription_options language temperature timestamp_granularities)))) := by
  unfold transcribe_audio
  rw [hm]
  dsimp only
  rw [if_neg hsize, hpre]

/-- `preprocess_audio` of the witness environment on any input: the decoded
three samples padded with 479997 zeros. -/
theorem testState_pre :
    preprocess_audio testEnv.librosa_load testState.config []
      = .ok (([1, 2, 3] : List ℚ) ++ List.replicate 479997 0) := by
  have h := preprocess_audio_short testEnv.librosa_load testState.config []
    [1, 2, 3] rfl (by
      rw [show testState.config.SAMPLE_RATE = 16000 from rfl]
      norm_num)
  rw [show testState.config.SAMPLE_RATE = 16000 from rfl] at h
  norm_num at h
  exact h

/-! ## Claim theorems -/

/-- C1: for every byte input whose decode (`librosa.load` at `sr=16000`)
yields a mono float array of `n` samples, `preprocess_audio` returns an array
of exactly `SAMPLE_RATE * 30 = 480000` samples: when `n > 480000` the result
is the first 480000 decoded samples, and otherwise it is the decoded samples
followed by `480000 - n` zeros appended at the end. -/
theorem C1_preprocess_audio_pad_trim
    (load : List ℕ → Except String (List ℚ)) (envWhisperModel : Option String)
    (cudaAvailable : Bool) (audio_file : List ℕ) (decoded : List ℚ)
    (hdec : load audio_file = .ok decoded) :
    ∃ r, preprocess_audio load (mkConfig envWhisperModel cudaAvailable) audio_file = .ok r ∧
      r.length = 480000 ∧
      (decoded.length > 480000 → r = decoded.take 480000) ∧
      (decoded.length ≤ 480000 →
        r = decoded ++ List.replicate (480000 - decoded.length) 0) := by
  have heq := preprocess_audio_eq load (mkConfig envWhisperModel cudaAvailable)
    audio_file decoded hdec
  have hsr : (mkConfig envWhisperModel cudaAvailable).SAMPLE_RATE = 16000 := rfl
  rw [hsr] at heq
  norm_num at heq
  by_cases hlen : decoded.length > 480000
  · rw [if_pos hlen] at heq
    refine ⟨_, heq, ?_, fun _ => rfl, fun h => absurd hlen (by omega)⟩
    rw [List.length_take]
    omega
  · rw [if_neg hlen] at heq
    refine ⟨_, heq, ?_, fun h => absurd h hlen, fun _ => rfl⟩
    rw [List.length_append, List.length_replicate]
    omega

/-- Witness for C1 at the concrete decode result `[1, 2, 3]`. -/
theorem C1_witness :
    ∃ r, preprocess_audio testEnv.librosa_load (mkConfig none false) [] = .ok r ∧
      r.length = 480000 ∧
      (([1, 2, 3] : List ℚ).length > 480000 → r = ([1, 2, 3] : List ℚ).take 480000) ∧
      (([1, 2, 3] : List ℚ).length ≤ 480000 →
        r = ([1, 2, 3] : List ℚ) ++ List.replicate (480000 - ([1, 2, 3] : List ℚ).length) 0) :=
  C1_preprocess_audio_pad_trim testEnv.librosa_load none false [] [1, 2, 3] rfl

/-- C2: in `transcribe_audio`, for every model result: when the result dict
contains `avg_logprob` with value `p`, the response's confidence equals
`1.0 - (p / -1.0) = 1 + p`; when the key is absent, the confidence is
`None`. -/
theorem C2_transcribe_audio_confidence
    (env : Env) (st : ServerState) (wm : WhisperModel) (file_content : List ℕ)
    (model : String) (language : Option String) (response_format : String)
    (temperature : ℚ) (timestamp_granularities : Option String) (audio_data : List ℚ)
    (hm : st.whisper_model = some wm)
    (hsize : ¬ file_content.length > st.config.MAX_FILE_SIZE)
    (hpre : preprocess_audio env.librosa_load st.config file_content = .ok audio_data) :
    ∃ resp, (transcribe_audio env st file_content model language response_format
        temperature timestamp_granularities).2 = .ok resp ∧
      (∀ p, (wm.transcribe audio_data (transcription_options language temperature
          timestamp_granularities)).avg_logprob = some p →
        resp.confidence = some (1 + p)) ∧
      ((wm.transcribe audio_data (transcription_options language temperature
          timestamp_granularities)).avg_logprob = none →
        resp.confidence = none) := by
  refine ⟨_, by
    rw [transcribe_audio_ok env st wm file_content model language response_format
      temperature timestamp_granularities audio_data hm hsize hpre], ?_, ?_⟩
  · intro p hp
    simp [format_transcription, transcription_confidence, hp, overall_confidence_transform]
    ring
  · intro hnone
    simp [format_transcription, transcription_confidence, hnone]

/-- Witness for C2 in the concrete test environment (the test model reports
`avg_logprob = -1/2`). -/
theorem C2_witness :
    ∃ resp, (transcribe_audio testEnv testState [] "base" (some "ko") "json" 0 none).2
        = .ok resp ∧
      (∀ p, (testModel.transcribe (([1, 2, 3] : List ℚ) ++ List.replicate 479997 0)
          (transcription_options (some "ko") 0 none)).avg_logprob = some p →
        resp.confidence = some (1 + p)) ∧
      ((testModel.transcribe (([1, 2, 3] : List ℚ) ++ List.replicate 479997 0)
          (transcription_options (some "ko") 0 none)).avg_logprob = none →
        resp.confidence = none) :=
  C2_transcribe_audio_confidence testEnv testState testModel [] "base" (some "ko") "json"
    0 none (([1, 2, 3] : List ℚ) ++ List.replicate 479997 0) rfl (by simp) testState_pre

/-- C3: the overall-confidence transform of `/v1/audio/transcriptions`
(`p ↦ 1.0 - (p / -1.0)`) and the per-segment transform of
`/transcribe-stream` (`p ↦ 1.0 - |p|`) agree on every log-probability value,
i.e. on every `p ≤ 0` (a log-probability is the log of a probability in
`[0, 1]`, hence nonpositive). -/
theorem C3_confidence_transforms_agree (p : ℚ) (hp : p ≤ 0) :
    overall_confidence_transform p = segment_confidence_transform p := by
  unfold overall_confidence_transform segment_confidence_transform
  rw [abs_of_nonpos hp]
  ring

/-- Witness for C3 at `p = -1/2` (both transforms yield `1/2`). -/
theorem C3_witness :
    overall_confidence_transform (-1/2) = segment_confidence_transform (-1/2) :=
  C3_confidence_transforms_agree (-1/2) (by norm_num)

/-- C4: for every non-empty probability map returned by the model's
`detect_language` call (a dict, so its keys are distinct), the
`/v1/audio/detect-language` handler returns a `detected_language` that is a
key of the map with maximal probability, and a confidence equal to the map's
value at that key — hence equal to the maximum value of the map. -/
theorem C4_detect_language_max
    (env : Env) (st : ServerState) (wm : WhisperModel) (file_content : List ℕ)
    (audio_data : List ℚ) (probs : List (String × ℚ))
    (hm : st.whisper_model = some wm)
    (hsize : ¬ file_content.length > st.config.MAX_FILE_SIZE)
    (hpre : preprocess_audio env.librosa_load st.config file_content = .ok audio_data)
    (hprobs : wm.detect_language (env.log_mel_spectrogram
        (audio_data.take (st.config.SAMPLE_RATE * 30)) wm.dims_n_mels) = probs)
    (hne : probs ≠ [])
    (hnd : (probs.map Prod.fst).Nodup) :
    ∃ d c, (detect_language env st file_content).2
        = .ok { detected_language := d, confidence := c } ∧
      (d, c) ∈ probs ∧ (∀ q ∈ probs, q.2 ≤ c) ∧
      (probs.map Prod.snd).maximum = (c : WithBot ℚ) := by
  obtain ⟨q, hq, hqmem, hqmax⟩ := pyMaxByValue_spec probs hne
  have hlook : dict_lookup q.1 probs = some q.2 :=
    dict_lookup_of_mem probs q.1 q.2 hnd hqmem
  have heq : detect_language env st file_content
      = (st, .ok { detected_language := q.1, confidence := q.2 }) := by
    unfold detect_language
    rw [hm]
    dsimp only
    rw [if_neg hsize, hpre]
    dsimp only
    rw [hprobs, hq]
    dsimp only
    rw [hlook]
  refine ⟨q.1, q.2, by rw [heq], hqmem, hqmax, ?_⟩
  rw [List.maximum_eq_coe_iff]
  refine ⟨List.mem_map_of_mem Prod.snd hqmem, ?_⟩
  intro b hb
  obtain ⟨y, hy, rfl⟩ := List.mem_map.mp hb
  exact hqmax y hy

/-- Witness for C4 in the concrete test environment, where the model reports
the probability map `[("ko", 9/10), ("en", 1/10)]`. -/
theorem C4_witness :
    ∃ d c, (detect_language testEnv testState []).2
        = .ok { detected_language := d, confidence := c } ∧
      (d, c) ∈ [(("ko" : String), (9/10 : ℚ)), ("en", 1/10)] ∧
      (∀ q ∈ [(("ko" : String), (9/10 : ℚ)), ("en", 1/10)], q.2 ≤ c) ∧
      (([(("ko" : String), (9/10 : ℚ)), ("en", 1/10)].map Prod.snd)).maximum
        = (c : WithBot ℚ) :=
  C4_detect_language_max testEnv testState testModel []
    (([1, 2, 3] : List ℚ) ++ List.replicate 479997 0) [("ko", 9/10), ("en", 1/10)]
    rfl (by simp) testState_pre rfl (by simp) (by simp)

/-- C5: for every request to `/v1/audio/transcriptions` whose content is
within the size limit (and whose decode succeeds, the model being loaded),
the response is exactly the formatting of one model invocation on
`preprocess_audio(content)`: decode/normalize, a single `transcribe` call on
that array, then response formatting, with no other transformation of the
audio in between. -/
theorem C5_transcribe_passes_preprocessed
    (env : Env) (st : ServerState) (wm : WhisperModel) (file_content : List ℕ)
    (model : String) (language : Option String) (response_format : String)
    (temperature : ℚ) (timestamp_granularities : Option String) (audio_data : List ℚ)
    (hm : st.whisper_model = some wm)
    (hsize : ¬ file_content.length > st.config.MAX_FILE_SIZE)
    (hpre : preprocess_audio env.librosa_load st.config file_content = .ok audio_data) :
    (transcribe_audio env st file_content model language response_format temperature
        timestamp_granularities).2
      = .ok (format_transcription (wm.transcribe audio_data
          (transcription_options language temperature timestamp_granularities))) := by
  rw [transcribe_audio_ok env st wm file_content model language response_format
    temperature timestamp_granularities audio_data hm hsize hpre]

/-- Witness for C5 in the concrete test environment. -/
theorem C5_witness :
    (transcribe_audio testEnv testState [] "base" (some "ko") "json" 0 none).2
      = .ok (format_transcription (testModel.transcribe
          (([1, 2, 3] : List ℚ) ++ List.replicate 479997 0)
          (transcription_options (some "ko") 0 none))) :=
  C5_transcribe_passes_preprocessed testEnv testState testModel [] "base" (some "ko")
    "json" 0 none (([1, 2, 3] : List ℚ) ++ List.replicate 479997 0) rfl (by simp)
    testState_pre

/-- C6: an upload exceeding `MAX_FILE_SIZE = 25*1024*1024` bytes makes both
upload handlers respond with an error without ever invoking the model (the
outcome is the same for every environment and every loaded model). In
`transcribe_audio` the 413 `HTTPException` raised inside the `try` block is
caught by the generic `except` clause, so the client-visible status is 500
with the 413 detail embedded in the message; `detect_language` behaves the
same with its shorter detail. -/
theorem C6_oversize_rejected
    (env env' : Env) (cfg : Config) (wm wm' : WhisperModel) (file_content : List ℕ)
    (model : String) (language : Option String) (response_format : String)
    (temperature : ℚ) (timestamp_granularities : Option String)
    (hbig : file_content.length > cfg.MAX_FILE_SIZE) :
    (transcribe_audio env ⟨some wm, cfg⟩ file_content model language response_format
        temperature timestamp_granularities).2
      = .httpError 500 ("Transcription failed: " ++ httpExceptionStr 413
          ("File too large. Maximum size: " ++ toString cfg.MAX_FILE_SIZE ++ " bytes")) ∧
    (detect_language env ⟨some wm, cfg⟩ file_content).2
      = .httpError 500 ("Language detection failed: " ++
          httpExceptionStr 413 "File too large") ∧
    (transcribe_audio env ⟨some wm, cfg⟩ file_content model language response_format
        temperature timestamp_granularities).2
      = (transcribe_audio env' ⟨some wm', cfg⟩ file_content model language response_format
          temperature timestamp_granularities).2 ∧
    (detect_language env ⟨some wm, cfg⟩ file_content).2
      = (detect_language env' ⟨some wm', cfg⟩ file_content).2 := by
  have h1 : ∀ (e : Env) (w : WhisperModel),
      (transcribe_audio e ⟨some w, cfg⟩ file_content model language response_format
          temperature timestamp_granularities).2
        = .httpError 500 ("Transcription failed: " ++ httpExceptionStr 413
            ("File too large. Maximum size: " ++ toString cfg.MAX_FILE_SIZE ++ " bytes")) := by
    intro e w
    unfold transcribe_audio
    dsimp only
    rw [if_pos hbig]
  have h2 : ∀ (e : Env) (w : WhisperModel),
      (detect_language e ⟨some w, cfg⟩ file_content).2
        = .httpError 500 ("Language detection failed: " ++
            httpExceptionStr 413 "File too large") := by
    intro e w
    unfold detect_language
    dsimp only
    rw [if_pos hbig]
  exact ⟨h1 env wm, h2 env wm,
    (h1 env wm).trans (h1 env' wm').symm, (h2 env wm).trans (h2 env' wm').symm⟩

/-- Witness for C6 at a concrete upload of 26214401 bytes, one past the
limit. -/
theorem C6_witness :
    (transcribe_audio testEnv ⟨some testModel, mkConfig none false⟩
        (List.replicate 26214401 0) "base" (some "ko") "json" 0 none).2
      = .httpError 500 ("Transcription failed: " ++ httpExceptionStr 413
          ("File too large. Maximum size: " ++
            toString (mkConfig none false).MAX_FILE_SIZE ++ " bytes")) ∧
    (detect_language testEnv ⟨some testModel, mkConfig none false⟩
        (List.replicate 26214401 0)).2
      = .httpError 500 ("Language detection failed: " ++
          httpExceptionStr 413 "File too large") ∧
    (transcribe_audio testEnv ⟨some testModel, mkConfig none false⟩
        (List.replicate 26214401 0) "base" (some "ko") "json" 0 none).2
      = (transcribe_audio testEnv ⟨some testModel, mkConfig none false⟩
          (List.replicate 26214401 0) "base" (some "ko") "json" 0 none).2 ∧
    (detect_language testEnv ⟨some testModel, mkConfig none false⟩
        (List.replicate 26214401 0)).2
      = (detect_language testEnv ⟨some testModel, mkConfig none false⟩
          (List.replicate 26214401 0)).2 :=
  C6_oversize_rejected testEnv testEnv (mkConfig none false) testModel testModel
    (List.replicate 26214401 0) "base" (some "ko") "json" 0 none (by
      simp only [List.length_replicate,
        show (mkConfig none false).MAX_FILE_SIZE = 25 * 1024 * 1024 from rfl]
      norm_num)

/-- C7: `Config.DEVICE` is `"cuda"` iff `torch.cuda.is_available()` was true
at module initialization and `"cpu"` otherwise, and the startup hook loads the
single global model instance via `whisper.load_model` on exactly that
configured device. -/
theorem C7_device_selection_and_load
    (envWhisperModel : Option String) (cudaAvailable : Bool) (env : Env) (st : ServerState) :
    ((mkConfig envWhisperModel cudaAvailable).DEVICE = "cuda" ↔ cudaAvailable = true) ∧
    ((mkConfig envWhisperModel cudaAvailable).DEVICE = "cpu" ↔ cudaAvailable = false) ∧
    (startup_event env st).whisper_model
      = some (env.whisper_load_model st.config.MODEL_NAME st.config.DEVICE) ∧
    (startup_event env st).config = st.config := by
  refine ⟨?_, ?_, rfl, rfl⟩ <;> cases cudaAvailable <;> simp [mkConfig]

/-- C8: no request handler modifies the global state: every endpoint returns
the `ServerState` it was given unchanged; only `load_whisper_model` (invoked
from the startup hook) assigns `whisper_model`. -/
theorem C8_handlers_preserve_state
    (env : Env) (st : ServerState) (now : String) (file_content : List ℕ)
    (model response_format : String) (language : Option String)
    (temperature : ℚ) (timestamp_granularities : Option String) :
    (health_check st now).1 = st ∧
    (get_models st).1 = st ∧
    (transcribe_audio env st file_content model language response_format temperature
        timestamp_granularities).1 = st ∧
    (detect_language env st file_content).1 = st ∧
    (transcribe_quick env st file_content).1 = st ∧
    (transcribe_stream env st file_content).1 = st ∧
    (get_info st).1 = st := by
  refine ⟨rfl, rfl, ?_, ?_, ?_, ?_, rfl⟩
  · unfold transcribe_audio
    repeat' split
    all_goals rfl
  · unfold detect_language
    dsimp only
    repeat' split
    all_goals rfl
  · unfold transcribe_quick
    repeat' split
    all_goals rfl
  · unfold transcribe_stream
    repeat' split
    all_goals rfl

/-- C9: the slice `audio_data[:SAMPLE_RATE*30]` taken by the
`detect-language` handler after preprocessing is the identity, because
`preprocess_audio` always returns exactly `SAMPLE_RATE * 30` samples. -/
theorem C9_preprocess_take_identity
    (load : List ℕ → Except String (List ℚ)) (config : Config)
    (audio_file : List ℕ) (audio_data : List ℚ)
    (hpre : preprocess_audio load config audio_file = .ok audio_data) :
    audio_data.take (config.SAMPLE_RATE * 30) = audio_data := by
  have hlen := preprocess_audio_length load config audio_file audio_data hpre
  exact List.take_of_length_le (le_of_eq hlen)

/-- Witness for C9 at the concrete decode result `[1, 2, 3]`. -/
theorem C9_witness :
    (([1, 2, 3] : List ℚ) ++ List.replicate 479997 0).take
        ((mkConfig none false).SAMPLE_RATE * 30)
      = ([1, 2, 3] : List ℚ) ++ List.replicate 479997 0 :=
  C9_preprocess_take_identity testEnv.librosa_load (mkConfig none false) []
    (([1, 2, 3] : List ℚ) ++ List.replicate 479997 0) (by
      have h := preprocess_audio_short testEnv.librosa_load (mkConfig none false) []
        [1, 2, 3] rfl (by
          rw [show (mkConfig none false).SAMPLE_RATE = 16000 from rfl]
          norm_num)
      rw [show (mkConfig none false).SAMPLE_RATE = 16000 from rfl] at h
      norm_num at h
      exact h)

/-- C10: `health_check` never raises (its embedding is a total function) and
returns status `"healthy"` iff the global `whisper_model` is loaded and
`"unhealthy"` otherwise; its `model` and `device` fields always equal
`config.MODEL_NAME` and `config.DEVICE` regardless of whether the model is
loaded. -/
theorem C10_health_check_spec (st : ServerState) (now : String) :
    ((health_check st now).2.status = "healthy" ↔ st.whisper_model ≠ none) ∧
    ((health_check st now).2.status = "unhealthy" ↔ st.whisper_model = none) ∧
    (health_check st now).2.model = st.config.MODEL_NAME ∧
    (health_check st now).2.device = st.config.DEVICE ∧
    (health_check st now).2.timestamp = now := by
  cases hw : st.whisper_model <;> simp [health_check, hw]

end WhisperSTT
